import Mathlib

/-!
Verification of the data-quality checker of the BankMark repository
(`scripts/quality_checks.py`, class `BankMarketingQualityChecker`).

The shallow embedding below mirrors the Python source:
* a `Value` is a cell of the tabular dataset; `Value.null` stands for a
  missing value (pandas `NaN`), whose comparison semantics follow pandas:
  `NaN < x`, `NaN > x`, `NaN == x`, `NaN <= x` and `NaN.isin(...)` are all
  false, while `NaN != x` is true;
* a `Dataset` is the in-memory dataframe: an ordered list of named columns,
  each carrying its dtype string and its list of values;
* each `check_*` function is one method of the Python class, producing a
  `Result` record with the same status / issues / details computation;
* `generate_quality_report` folds a result list into a `Report`
  (the wall-clock timestamp of the Python report is external and omitted);
* the checker instance state is `Checker` (the `self.results` list); the
  BigQuery fetch is external, so `Checker.run` receives the fetch outcome
  as an `Except String Dataset` argument and propagates the error case,
  mirroring the `try/raise` structure of `get_data_from_bigquery`/`run`;
* `main` maps the fetch outcome to the process exit code of the script's
  `main` function.
-/

/-- A cell value of the dataset: integer, string, or missing (pandas NaN). -/
inductive Value where
  | int : Int → Value
  | str : String → Value
  | null : Value
deriving DecidableEq

/-- Pandas `series < m` on a cell: numeric comparison; false on NaN. -/
def Value.ltInt : Value → Int → Bool
  | .int n, m => n < m
  | _, _ => false

/-- Pandas `series > m` on a cell: numeric comparison; false on NaN. -/
def Value.gtInt : Value → Int → Bool
  | .int n, m => m < n
  | _, _ => false

/-- Pandas `series <= m` on a cell: numeric comparison; false on NaN. -/
def Value.leInt : Value → Int → Bool
  | .int n, m => n ≤ m
  | _, _ => false

/-- Pandas `series == m` on a cell: numeric equality; false on NaN. -/
def Value.eqInt : Value → Int → Bool
  | .int n, m => n == m
  | _, _ => false

/-- Pandas `series != s` on a cell: string disequality; true on NaN. -/
def Value.neqStr : Value → String → Bool
  | .str s, t => s != t
  | _, _ => true

/-- Pandas `isnull` on a cell. -/
def Value.isNull : Value → Bool
  | .null => true
  | _ => false

/-- Pandas `series.isin(accepted)` on a cell: membership of a string value
in the accepted list; false on NaN (NaN is never a member). -/
def Value.isin : Value → List String → Bool
  | .str s, acc => acc.contains s
  | _, _ => false

/-- Rendering of a cell for issue messages. -/
def Value.render : Value → String
  | .int n => toString n
  | .str s => s
  | .null => "nan"

/-- One dataframe column: its dtype string and its cells, in row order. -/
structure Column where
  dtype : String
  values : List Value
deriving DecidableEq

/-- The in-memory dataframe: named columns in order. All columns of a
well-formed dataframe have the same number of cells. -/
structure Dataset where
  columns : List (String × Column)
deriving DecidableEq

/-- Column lookup, `df[name]`; `none` when the column is absent. -/
def Dataset.getCol (df : Dataset) (name : String) : Option Column :=
  (df.columns.find? (fun c => c.1 == name)).map (fun c => c.2)

/-- The Python `name in df.columns` test. -/
def Dataset.hasCol (df : Dataset) (name : String) : Bool :=
  (df.getCol name).isSome

/-- The Python `len(df)`: the common length of the columns (0 if none). -/
def Dataset.nrows (df : Dataset) : Nat :=
  match df.columns with
  | [] => 0
  | c :: _ => c.2.values.length

/-- Row `i` of the dataframe, as the tuple of its cells in column order. -/
def Dataset.rowAt (df : Dataset) (i : Nat) : List Value :=
  df.columns.map (fun c => c.2.values.getD i Value.null)

/-- The rows of the dataframe, in order. -/
def Dataset.rows (df : Dataset) : List (List Value) :=
  (List.range df.nrows).map df.rowAt

/-- The outcome record of one check, as built by each `check_*` method. -/
structure Result where
  test_name : String
  status : String
  issues : List String
  details : String
deriving DecidableEq

/-- The Python `'PASSED' if not issues else 'FAILED'` status computation. -/
def statusOf (issues : List String) : String :=
  if issues.isEmpty then "PASSED" else "FAILED"

/-- The `expected_types` table of `check_data_types`. -/
def expected_types : List (String × String) :=
  [("age", "int64"), ("job", "object"), ("marital", "object"),
   ("education", "object"), ("default", "object"), ("housing", "object"),
   ("loan", "object"), ("contact", "object"), ("month", "object"),
   ("day_of_week", "object"), ("duration", "int64"), ("campaign", "int64"),
   ("pdays", "int64"), ("previous", "int64"), ("poutcome", "object"),
   ("emp_var_rate", "float64"), ("cons_price_idx", "float64"),
   ("cons_conf_idx", "float64"), ("euribor3m", "float64"),
   ("nr_employed", "float64"), ("y", "object")]

/-- The `required_fields` list of `check_null_values`. -/
def required_fields : List String :=
  ["age", "job", "marital", "education", "duration", "campaign", "y"]

/-- The `range_checks` table of `check_value_ranges`: field, min, max. -/
def range_checks : List (String × Int × Int) :=
  [("age", 18, 95), ("duration", 0, 5000), ("campaign", 1, 100),
   ("pdays", -1, 1000), ("previous", 0, 10)]

/-- The `accepted_values` table of `check_accepted_values`. -/
def accepted_values : List (String × List String) :=
  [("job", ["admin.", "blue-collar", "entrepreneur", "housemaid",
            "management", "retired", "self-employed", "services", "student",
            "technician", "unemployed", "unknown"]),
   ("marital", ["divorced", "married", "single", "unknown"]),
   ("education", ["basic.4y", "basic.6y", "basic.9y", "high.school",
                  "illiterate", "professional.course", "university.degree",
                  "unknown"]),
   ("default", ["no", "unknown", "yes"]),
   ("housing", ["no", "unknown", "yes"]),
   ("loan", ["no", "unknown", "yes"]),
   ("contact", ["cellular", "telephone"]),
   ("month", ["jan", "feb", "mar", "apr", "may", "jun", "jul", "aug",
              "sep", "oct", "nov", "dec"]),
   ("day_of_week", ["mon", "tue", "wed", "thu", "fri"]),
   ("poutcome", ["failure", "nonexistent", "success"]),
   ("y", ["no", "yes"])]

/-- The per-column body of `check_data_types`: the issue, if any, that the
configured column contributes (skipped when absent from the dataframe). -/
def typeIssue (df : Dataset) (p : String × String) : Option String :=
  match df.getCol p.1 with
  | none => none
  | some col =>
    if col.dtype = p.2 then none
    else some ("Column " ++ p.1 ++ ": expected " ++ p.2 ++ ", got " ++ col.dtype)

/-- `check_data_types`. -/
def check_data_types (df : Dataset) : Result :=
  let issues := expected_types.filterMap (typeIssue df)
  { test_name := "Data Types Check", status := statusOf issues,
    issues := issues,
    details := "Checked " ++ toString expected_types.length ++ " columns" }

/-- The per-field body of `check_null_values`. -/
def nullIssue (df : Dataset) (f : String) : Option String :=
  match df.getCol f with
  | none => none
  | some col =>
    let null_count := (col.values.filter Value.isNull).length
    if null_count > 0 then
      some ("Field " ++ f ++ ": " ++ toString null_count ++ " null values")
    else none

/-- `check_null_values`. -/
def check_null_values (df : Dataset) : Result :=
  let issues := required_fields.filterMap (nullIssue df)
  { test_name := "Null Values Check", status := statusOf issues,
    issues := issues,
    details := "Checked " ++ toString required_fields.length ++ " required fields" }

/-- The mask `(df[field] < min_val) | (df[field] > max_val)` on one cell. -/
def isOutOfRange (lo hi : Int) (v : Value) : Bool :=
  v.ltInt lo || v.gtInt hi

/-- The per-field body of `check_value_ranges`. -/
def rangeIssue (df : Dataset) (p : String × Int × Int) : Option String :=
  match df.getCol p.1 with
  | none => none
  | some col =>
    let out_of_range := col.values.filter (isOutOfRange p.2.1 p.2.2)
    if out_of_range.length > 0 then
      some ("Field " ++ p.1 ++ ": " ++ toString out_of_range.length ++
            " values outside range [" ++ toString p.2.1 ++ ", " ++
            toString p.2.2 ++ "]")
    else none

/-- `check_value_ranges`. -/
def check_value_ranges (df : Dataset) : Result :=
  let issues := range_checks.filterMap (rangeIssue df)
  { test_name := "Value Ranges Check", status := statusOf issues,
    issues := issues,
    details := "Checked " ++ toString range_checks.length ++ " numeric fields" }

/-- The per-field body of `check_accepted_values`; the unique invalid
values are reported in first-occurrence order, as pandas `unique` does. -/
def acceptedIssue (df : Dataset) (p : String × List String) : Option String :=
  match df.getCol p.1 with
  | none => none
  | some col =>
    let invalid_values := col.values.filter (fun v => !(v.isin p.2))
    if invalid_values.length > 0 then
      some ("Field " ++ p.1 ++ ": " ++ toString invalid_values.length ++
            " invalid values: " ++
            String.intercalate " " (invalid_values.eraseDups.map Value.render))
    else none

/-- `check_accepted_values`. -/
def check_accepted_values (df : Dataset) : Result :=
  let issues := accepted_values.filterMap (acceptedIssue df)
  { test_name := "Accepted Values Check", status := statusOf issues,
    issues := issues,
    details := "Checked " ++ toString accepted_values.length ++ " categorical fields" }

/-- Helper of `df.duplicated().sum()`: counts rows already seen, scanning
left to right with the set of rows seen so far. -/
def dupCountAux (seen : List (List Value)) : List (List Value) → Nat
  | [] => 0
  | r :: rs => (if r ∈ seen then 1 else 0) + dupCountAux (r :: seen) rs

/-- `df.duplicated().sum()`: the number of rows equal to an earlier row. -/
def dupCount (rs : List (List Value)) : Nat :=
  dupCountAux [] rs

/-- `check_duplicates`. -/
def check_duplicates (df : Dataset) : Result :=
  let duplicate_count := dupCount df.rows
  { test_name := "Duplicate Records Check",
    status := if duplicate_count = 0 then "PASSED" else "FAILED",
    issues := if duplicate_count > 0 then
        ["Found " ++ toString duplicate_count ++ " duplicate records"]
      else [],
    details := "Total records: " ++ toString df.nrows }

/-- Rule 1 of `check_data_consistency`: pdays = -1 must imply previous = 0. -/
def consIssue1 (df : Dataset) : List String :=
  match df.getCol "pdays", df.getCol "previous" with
  | some cp, some cv =>
    let inconsistent := (cp.values.zip cv.values).filter
      (fun r => r.1.eqInt (-1) && r.2.gtInt 0)
    if inconsistent.length > 0 then
      ["Found " ++ toString inconsistent.length ++
       " records where pdays=-1 but previous>0"]
    else []
  | _, _ => []

/-- Rule 2 of `check_data_consistency`: previous = 0 must imply
poutcome = 'nonexistent'. -/
def consIssue2 (df : Dataset) : List String :=
  match df.getCol "previous", df.getCol "poutcome" with
  | some cv, some cq =>
    let inconsistent := (cv.values.zip cq.values).filter
      (fun r => r.1.eqInt 0 && r.2.neqStr "nonexistent")
    if inconsistent.length > 0 then
      ["Found " ++ toString inconsistent.length ++
       " records where previous=0 but poutcome!=nonexistent"]
    else []
  | _, _ => []

/-- Rule 3 of `check_data_consistency`: duration must be positive. -/
def consIssue3 (df : Dataset) : List String :=
  match df.getCol "duration" with
  | some cd =>
    let negative_duration := cd.values.filter (fun v => v.leInt 0)
    if negative_duration.length > 0 then
      ["Found " ++ toString negative_duration.length ++
       " records with non-positive duration"]
    else []
  | none => []

/-- `check_data_consistency`. -/
def check_data_consistency (df : Dataset) : Result :=
  let issues := consIssue1 df ++ consIssue2 df ++ consIssue3 df
  { test_name := "Data Consistency Check", status := statusOf issues,
    issues := issues,
    details := "Checked business logic consistency" }

/-- The aggregated report; the Python report's wall-clock timestamp is
external input and omitted here. -/
structure Report where
  total_tests : Nat
  passed_tests : Nat
  failed_tests : Nat
  quality_score : Rat
  results : List Result
deriving DecidableEq

/-- `generate_quality_report`, over the accumulated result list. -/
def generate_quality_report (results : List Result) : Report :=
  let total_tests := results.length
  let passed_tests := (results.filter (fun r => r.status == "PASSED")).length
  let failed_tests := total_tests - passed_tests
  let quality_score : Rat :=
    if total_tests > 0 then ((passed_tests : Rat) / (total_tests : Rat)) * 100
    else 0
  { total_tests := total_tests, passed_tests := passed_tests,
    failed_tests := failed_tests, quality_score := quality_score,
    results := results }

/-- The six check results of one `run` invocation, in source order. -/
def runChecks (df : Dataset) : List Result :=
  [check_data_types df, check_null_values df, check_value_ranges df,
   check_accepted_values df, check_duplicates df, check_data_consistency df]

/-- The mutable state of a `BankMarketingQualityChecker` instance: its
`self.results` list (the BigQuery client handle is external). -/
structure Checker where
  results : List Result
deriving DecidableEq

/-- A freshly constructed checker: `self.results = []`. -/
def Checker.new : Checker :=
  { results := [] }

/-- The checker state after one `run` body: the six new results are
appended to whatever `self.results` already held. -/
def runState (c : Checker) (df : Dataset) : Checker :=
  { results := c.results ++ runChecks df }

/-- The report one `run` body produces from that accumulated state. -/
def runReport (c : Checker) (df : Dataset) : Report :=
  generate_quality_report (c.results ++ runChecks df)

/-- `BankMarketingQualityChecker.run`: the fetch outcome is passed in
(`get_data_from_bigquery` re-raises any fetch error, and `run` re-raises
it in turn, producing no report); on a fetched dataframe the six checks
are executed and the report generated. -/
def Checker.run (c : Checker) (fetched : Except String Dataset) :
    Except String (Checker × Report) :=
  match fetched with
  | .error e => .error e
  | .ok df => .ok (runState c df, runReport c df)

namespace cli

/-- The script's `main`: exit code 0 when `checker.run()` returns,
exit code 1 when it raises. -/
def main (fetched : Except String Dataset) : Nat :=
  match Checker.new.run fetched with
  | .ok _ => 0
  | .error _ => 1

end cli

/-! Concrete fixture datasets used by witnesses and counterexamples. -/

/-- A dataframe with no columns at all. -/
def ds0 : Dataset := ⟨[]⟩

/-- A dataframe on which five of the six checks fail while the configured
field `y` is absent: `age` has a wrong dtype, a null and an out-of-range
value, `job` holds an unaccepted value, and `duration` holds a zero. -/
def dsBad : Dataset :=
  ⟨[("age", ⟨"float64", [Value.null, Value.int 200]⟩),
    ("job", ⟨"object", [Value.str "pilot", Value.str "admin."]⟩),
    ("duration", ⟨"int64", [Value.int 0, Value.int 5]⟩)]⟩

/-- A dataframe on which all six checks fail: wrong dtype, a null, an
out-of-range value, an unaccepted value, a duplicated row and a
non-positive duration. -/
def dsAllFail : Dataset :=
  ⟨[("age", ⟨"float64", [Value.null, Value.int 200, Value.int 200]⟩),
    ("job", ⟨"object", [Value.str "pilot", Value.str "pilot", Value.str "pilot"]⟩),
    ("duration", ⟨"int64", [Value.int 0, Value.int 5, Value.int 5]⟩)]⟩

/-- A dataframe with configured columns but zero rows. -/
def dsZero : Dataset :=
  ⟨[("age", ⟨"int64", []⟩), ("duration", ⟨"int64", []⟩),
    ("pdays", ⟨"int64", []⟩), ("previous", ⟨"int64", []⟩),
    ("job", ⟨"object", []⟩)]⟩

/-- A dataframe whose duration column holds the boundary value 0. -/
def dsDur : Dataset := ⟨[("duration", ⟨"int64", [Value.int 0]⟩)]⟩

/-- A dataframe whose poutcome column holds a null. -/
def dsPout : Dataset := ⟨[("poutcome", ⟨"object", [Value.null]⟩)]⟩

/-- A one-row, one-column dataframe on which every check passes. -/
def dsC7 : Dataset := ⟨[("age", ⟨"int64", [Value.int 30]⟩)]⟩

/-! Helper lemmas about the check bodies. -/

/-- The status string is FAILED exactly when the issue list is non-empty. -/
theorem statusOf_failed_iff (l : List String) : statusOf l = "FAILED" ↔ l ≠ [] := by
  unfold statusOf
  cases l with
  | nil => simp
  | cons a t => simp

/-- A configured column absent from the dataframe contributes no type issue. -/
theorem typeIssue_none_of_absent (df : Dataset) (p : String × String)
    (h : df.hasCol p.1 = false) : typeIssue df p = none := by
  unfold typeIssue
  unfold Dataset.hasCol at h
  cases hc : df.getCol p.1 with
  | none => rfl
  | some c => rw [hc] at h; simp at h

/-- A type issue can only come from a column present in the dataframe. -/
theorem hasCol_of_typeIssue_some (df : Dataset) (p : String × String)
    (h : typeIssue df p ≠ none) : df.hasCol p.1 = true := by
  unfold Dataset.hasCol
  cases hc : df.getCol p.1 with
  | none => exfalso; apply h; unfold typeIssue; rw [hc]
  | some c => rfl

/-- A required field absent from the dataframe contributes no null issue. -/
theorem nullIssue_none_of_absent (df : Dataset) (f : String)
    (h : df.hasCol f = false) : nullIssue df f = none := by
  unfold nullIssue
  unfold Dataset.hasCol at h
  cases hc : df.getCol f with
  | none => rfl
  | some c => rw [hc] at h; simp at h

/-- A null issue can only come from a column present in the dataframe. -/
theorem hasCol_of_nullIssue_some (df : Dataset) (f : String)
    (h : nullIssue df f ≠ none) : df.hasCol f = true := by
  unfold Dataset.hasCol
  cases hc : df.getCol f with
  | none => exfalso; apply h; unfold nullIssue; rw [hc]
  | some c => rfl

/-- A configured column absent from the dataframe contributes no range issue. -/
theorem rangeIssue_none_of_absent (df : Dataset) (p : String × Int × Int)
    (h : df.hasCol p.1 = false) : rangeIssue df p = none := by
  unfold rangeIssue
  unfold Dataset.hasCol at h
  cases hc : df.getCol p.1 with
  | none => rfl
  | some c => rw [hc] at h; simp at h

/-- A range issue can only come from a column present in the dataframe. -/
theorem hasCol_of_rangeIssue_some (df : Dataset) (p : String × Int × Int)
    (h : rangeIssue df p ≠ none) : df.hasCol p.1 = true := by
  unfold Dataset.hasCol
  cases hc : df.getCol p.1 with
  | none => exfalso; apply h; unfold rangeIssue; rw [hc]
  | some c => rfl

/-- A configured column absent from the dataframe contributes no
membership issue. -/
theorem acceptedIssue_none_of_absent (df : Dataset) (p : String × List String)
    (h : df.hasCol p.1 = false) : acceptedIssue df p = none := by
  unfold acceptedIssue
  unfold Dataset.hasCol at h
  cases hc : df.getCol p.1 with
  | none => rfl
  | some c => rw [hc] at h; simp at h

/-- A membership issue can only come from a column present in the dataframe. -/
theorem hasCol_of_acceptedIssue_some (df : Dataset) (p : String × List String)
    (h : acceptedIssue df p ≠ none) : df.hasCol p.1 = true := by
  unfold Dataset.hasCol
  cases hc : df.getCol p.1 with
  | none => exfalso; apply h; unfold acceptedIssue; rw [hc]
  | some c => rfl

/-- The first consistency rule only fires when pdays and previous are
both present. -/
theorem consIssue1_cols (df : Dataset) (h : consIssue1 df ≠ []) :
    df.hasCol "pdays" = true ∧ df.hasCol "previous" = true := by
  unfold consIssue1 at h
  unfold Dataset.hasCol
  cases h1 : df.getCol "pdays" with
  | none => exfalso; apply h; rw [h1]
  | some cp =>
    cases h2 : df.getCol "previous" with
    | none => exfalso; apply h; rw [h1, h2]
    | some cv => exact ⟨rfl, rfl⟩

/-- The second consistency rule only fires when previous and poutcome are
both present. -/
theorem consIssue2_cols (df : Dataset) (h : consIssue2 df ≠ []) :
    df.hasCol "previous" = true ∧ df.hasCol "poutcome" = true := by
  unfold consIssue2 at h
  unfold Dataset.hasCol
  cases h1 : df.getCol "previous" with
  | none => exfalso; apply h; rw [h1]
  | some cv =>
    cases h2 : df.getCol "poutcome" with
    | none => exfalso; apply h; rw [h1, h2]
    | some cq => exact ⟨rfl, rfl⟩

/-- The third consistency rule only fires when duration is present. -/
theorem consIssue3_cols (df : Dataset) (h : consIssue3 df ≠ []) :
    df.hasCol "duration" = true := by
  unfold consIssue3 at h
  unfold Dataset.hasCol
  cases h1 : df.getCol "duration" with
  | none => exfalso; apply h; rw [h1]
  | some cd => rfl

/-- The quality score of a non-empty result list is the passed/total
fraction times one hundred. -/
theorem quality_score_formula (rs : List Result) (h : rs ≠ []) :
    (generate_quality_report rs).quality_score =
      ((generate_quality_report rs).passed_tests : Rat) /
        ((generate_quality_report rs).total_tests : Rat) * 100 := by
  simp only [generate_quality_report]
  rw [if_pos (List.length_pos.mpr h)]

/-- Doubling a result list leaves the quality score unchanged. -/
theorem score_append_self (l : List Result) :
    (generate_quality_report (l ++ l)).quality_score =
      (generate_quality_report l).quality_score := by
  simp only [generate_quality_report, List.filter_append, List.length_append]
  by_cases h : 0 < l.length
  · rw [if_pos (by omega : 0 < l.length + l.length), if_pos h]
    have hn : ((l.length : Rat)) ≠ 0 := by
      exact_mod_cast Nat.pos_iff_ne_zero.mp h
    push_cast
    field_simp
    ring
  · rw [if_neg (by omega : ¬ 0 < l.length + l.length), if_neg h]

/-- Scanning count of already-seen rows, expressed positionally: row `i`
counts when it occurs in the seen prefix or earlier in the list. -/
theorem dupCountAux_eq (rs : List (List Value)) :
    ∀ seen, dupCountAux seen rs =
      (List.range rs.length).countP
        (fun i => decide (rs.getD i [] ∈ seen ∨ rs.getD i [] ∈ rs.take i)) := by
  induction rs with
  | nil => intro seen; simp [dupCountAux]
  | cons r rest ih =>
    intro seen
    have h2 : ((List.range rest.length).countP
        ((fun i => decide ((r :: rest).getD i [] ∈ seen ∨
            (r :: rest).getD i [] ∈ (r :: rest).take i)) ∘ Nat.succ))
        = (List.range rest.length).countP
          (fun i => decide (rest.getD i [] ∈ (r :: seen) ∨
              rest.getD i [] ∈ rest.take i)) := by
      apply List.countP_congr
      intro i _
      simp only [Function.comp, List.getD_cons_succ, List.take_succ_cons,
        decide_eq_true_eq, List.mem_cons]
      tauto
    simp only [dupCountAux, List.length_cons, List.range_succ_eq_map,
      List.countP_cons, List.countP_map, h2, ih (r :: seen)]
    simp only [List.getD_cons_zero, List.take_zero, List.not_mem_nil,
      or_false, decide_eq_true_eq]
    by_cases hr : r ∈ seen
    · omega
    · omega

/-- The pandas duplicated-row count: the number of positions whose row
already occurs strictly earlier (first occurrences are not counted). -/
theorem dupCount_eq_spec (rs : List (List Value)) :
    dupCount rs = (List.range rs.length).countP
      (fun i => decide (rs.getD i [] ∈ rs.take i)) := by
  rw [dupCount, dupCountAux_eq rs []]
  apply List.countP_congr
  intro i _
  simp

/-! Claim theorems. -/

/-- C1: on a freshly constructed checker, `run` on any fetched dataframe
produces a report with exactly six results (one per check), whose quality
score is passed over total times one hundred; an empty result list yields
score zero. -/
theorem run_report_six_tests_and_score (df : Dataset) :
    Checker.new.run (Except.ok df) =
      Except.ok (runState Checker.new df, runReport Checker.new df) ∧
    (runReport Checker.new df).total_tests = 6 ∧
    (runReport Checker.new df).quality_score =
      ((runReport Checker.new df).passed_tests : Rat) /
        ((runReport Checker.new df).total_tests : Rat) * 100 ∧
    (generate_quality_report []).quality_score = 0 := by
  refine ⟨rfl, rfl, ?_, rfl⟩
  exact quality_score_formula (Checker.new.results ++ runChecks df)
    (by simp [Checker.new, runChecks])

/-- C2 counterexample: on the concrete dataframe `ds0`, a second `run` on
the same checker instance yields a different report than the first run,
because `self.results` is never reset between runs. -/
theorem run_not_idempotent_cex :
    runReport (runState Checker.new ds0) ds0 ≠ runReport Checker.new ds0 := by
  intro h
  exact absurd (congrArg Report.total_tests h) (by decide)

/-- C2 amended: a second `run` on the same checker instance appends six
further results, so its report has twelve tests and a doubled result
list; the quality score nevertheless coincides with the first report's,
and only runs on freshly constructed checkers yield identical reports. -/
theorem run_accumulates_results (df : Dataset) :
    (runReport (runState Checker.new df) df).total_tests = 12 ∧
    (runReport (runState Checker.new df) df).results =
      (runReport Checker.new df).results ++ (runReport Checker.new df).results ∧
    (runReport (runState Checker.new df) df).quality_score =
      (runReport Checker.new df).quality_score := by
  refine ⟨rfl, rfl, ?_⟩
  show (generate_quality_report ((Checker.new.results ++ runChecks df) ++ runChecks df)).quality_score = _
  have hnil : Checker.new.results ++ runChecks df = runChecks df := rfl
  rw [hnil]
  exact score_append_self (runChecks df)

/-- C8: the command-line entry point exits with code 0 whenever the run
succeeds, even on a dataframe failing all six checks, and exits with
code 1 exactly when the fetch raises. -/
theorem main_exit_codes :
    (∀ df : Dataset, cli.main (Except.ok df) = 0) ∧
    (∀ e : String, cli.main (Except.error e) = 1) ∧
    cli.main (Except.ok dsAllFail) = 0 ∧
    (runReport Checker.new dsAllFail).failed_tests = 6 := by
  refine ⟨fun _ => rfl, fun _ => rfl, rfl, ?_⟩
  decide

/-- C3: a configured field absent from the dataframe is skipped: it
contributes no issue to the type, null, range or membership check, and
each of the five field-configured checks can only report FAILED when some
configured field is actually present in the dataframe — absence alone
never causes a failure. -/
theorem absent_field_tolerance (df : Dataset) :
    (∀ p ∈ expected_types, df.hasCol p.1 = false → typeIssue df p = none) ∧
    (∀ f ∈ required_fields, df.hasCol f = false → nullIssue df f = none) ∧
    (∀ p ∈ range_checks, df.hasCol p.1 = false → rangeIssue df p = none) ∧
    (∀ p ∈ accepted_values, df.hasCol p.1 = false → acceptedIssue df p = none) ∧
    ((check_data_types df).status = "FAILED" →
      ∃ p ∈ expected_types, df.hasCol p.1 = true) ∧
    ((check_null_values df).status = "FAILED" →
      ∃ f ∈ required_fields, df.hasCol f = true) ∧
    ((check_value_ranges df).status = "FAILED" →
      ∃ p ∈ range_checks, df.hasCol p.1 = true) ∧
    ((check_accepted_values df).status = "FAILED" →
      ∃ p ∈ accepted_values, df.hasCol p.1 = true) ∧
    ((check_data_consistency df).status = "FAILED" →
      (df.hasCol "pdays" = true ∧ df.hasCol "previous" = true) ∨
      (df.hasCol "previous" = true ∧ df.hasCol "poutcome" = true) ∨
      df.hasCol "duration" = true) := by
  refine ⟨fun p _ h => typeIssue_none_of_absent df p h,
    fun f _ h => nullIssue_none_of_absent df f h,
    fun p _ h => rangeIssue_none_of_absent df p h,
    fun p _ h => acceptedIssue_none_of_absent df p h, ?_, ?_, ?_, ?_, ?_⟩
  · intro hs
    have hne : expected_types.filterMap (typeIssue df) ≠ [] :=
      (statusOf_failed_iff _).mp hs
    rw [Ne, List.filterMap_eq_nil_iff] at hne
    push_neg at hne
    obtain ⟨p, hp, hsome⟩ := hne
    exact ⟨p, hp, hasCol_of_typeIssue_some df p hsome⟩
  · intro hs
    have hne : required_fields.filterMap (nullIssue df) ≠ [] :=
      (statusOf_failed_iff _).mp hs
    rw [Ne, List.filterMap_eq_nil_iff] at hne
    push_neg at hne
    obtain ⟨f, hf, hsome⟩ := hne
    exact ⟨f, hf, hasCol_of_nullIssue_some df f hsome⟩
  · intro hs
    have hne : range_checks.filterMap (rangeIssue df) ≠ [] :=
      (statusOf_failed_iff _).mp hs
    rw [Ne, List.filterMap_eq_nil_iff] at hne
    push_neg at hne
    obtain ⟨p, hp, hsome⟩ := hne
    exact ⟨p, hp, hasCol_of_rangeIssue_some df p hsome⟩
  · intro hs
    have hne : accepted_values.filterMap (acceptedIssue df) ≠ [] :=
      (statusOf_failed_iff _).mp hs
    rw [Ne, List.filterMap_eq_nil_iff] at hne
    push_neg at hne
    obtain ⟨p, hp, hsome⟩ := hne
    exact ⟨p, hp, hasCol_of_acceptedIssue_some df p hsome⟩
  · intro hs
    have hne : consIssue1 df ++ consIssue2 df ++ consIssue3 df ≠ [] :=
      (statusOf_failed_iff _).mp hs
    by_cases h1 : consIssue1 df = []
    · by_cases h2 : consIssue2 df = []
      · have h3 : consIssue3 df ≠ [] := by
          intro h3
          exact hne (by rw [h1, h2, h3]; rfl)
        exact Or.inr (Or.inr (consIssue3_cols df h3))
      · exact Or.inr (Or.inl (consIssue2_cols df h2))
    · exact Or.inl (consIssue1_cols df h1)

/-- C3 witness: on `dsBad`, the absent field `y` is skipped by the type
check, and each of the five failing checks exhibits a present configured
field. -/
theorem absent_field_tolerance_witness :
    typeIssue dsBad ("y", "object") = none ∧
    (∃ p ∈ expected_types, dsBad.hasCol p.1 = true) ∧
    (∃ f ∈ required_fields, dsBad.hasCol f = true) ∧
    (∃ p ∈ range_checks, dsBad.hasCol p.1 = true) ∧
    (∃ p ∈ accepted_values, dsBad.hasCol p.1 = true) ∧
    ((dsBad.hasCol "pdays" = true ∧ dsBad.hasCol "previous" = true) ∨
     (dsBad.hasCol "previous" = true ∧ dsBad.hasCol "poutcome" = true) ∨
     dsBad.hasCol "duration" = true) := by
  have h := absent_field_tolerance dsBad
  exact ⟨h.1 ("y", "object") (by decide) (by decide),
    h.2.2.2.2.1 rfl, h.2.2.2.2.2.1 rfl, h.2.2.2.2.2.2.1 rfl,
    h.2.2.2.2.2.2.2.1 rfl, h.2.2.2.2.2.2.2.2 rfl⟩

/-- A range issue is reported for a configured field exactly when the
field is present and holds at least one out-of-range cell. -/
theorem rangeIssue_some_iff (df : Dataset) (p : String × Int × Int) :
    rangeIssue df p ≠ none ↔
      ∃ col, df.getCol p.1 = some col ∧
        ∃ v ∈ col.values, isOutOfRange p.2.1 p.2.2 v = true := by
  cases hc : df.getCol p.1 with
  | none => simp [rangeIssue, hc]
  | some c =>
    have hiff : 0 < (c.values.filter (isOutOfRange p.2.1 p.2.2)).length ↔
        ∃ v ∈ c.values, isOutOfRange p.2.1 p.2.2 v = true := by
      rw [← List.countP_eq_length_filter]
      exact List.countP_pos_iff
    by_cases hl : 0 < (c.values.filter (isOutOfRange p.2.1 p.2.2)).length
    · simp only [rangeIssue, hc, if_pos hl, ne_eq, Option.some.injEq,
        exists_eq_left']
      constructor
      · intro _
        exact hiff.mp hl
      · intro _
        simp
    · simp only [rangeIssue, hc, if_neg hl, ne_eq, Option.some.injEq,
        exists_eq_left']
      constructor
      · intro hcon
        exact absurd trivial hcon
      · intro hex
        exact absurd (hiff.mpr hex) hl

/-- C4: the numeric-range check reports FAILED exactly when some
configured field present in the dataframe holds an out-of-range cell, and
an integer cell is out of range exactly when it is strictly below the
configured minimum or strictly above the configured maximum. -/
theorem value_ranges_check_correct (df : Dataset) :
    ((check_value_ranges df).status = "FAILED" ↔
      ∃ p ∈ range_checks, ∃ col, df.getCol p.1 = some col ∧
        ∃ v ∈ col.values, isOutOfRange p.2.1 p.2.2 v = true) ∧
    (∀ lo hi n : Int, isOutOfRange lo hi (Value.int n) = true ↔ n < lo ∨ hi < n) := by
  constructor
  · rw [show (check_value_ranges df).status =
        statusOf (range_checks.filterMap (rangeIssue df)) from rfl,
      statusOf_failed_iff, Ne, List.filterMap_eq_nil_iff]
    push_neg
    constructor
    · rintro ⟨p, hp, hsome⟩
      exact ⟨p, hp, (rangeIssue_some_iff df p).mp hsome⟩
    · rintro ⟨p, hp, hex⟩
      exact ⟨p, hp, (rangeIssue_some_iff df p).mpr hex⟩
  · intro lo hi n
    simp [isOutOfRange, Value.ltInt, Value.gtInt]

/-- Under a column-lookup hit on an all-empty dataframe, the found column
has no cells. -/
theorem getCol_values_nil (df : Dataset) (h : ∀ c ∈ df.columns, c.2.values = [])
    {name : String} {col : Column} (hc : df.getCol name = some col) :
    col.values = [] := by
  unfold Dataset.getCol at hc
  cases hf : df.columns.find? (fun c => c.1 == name) with
  | none => rw [hf] at hc; exact absurd hc (by simp)
  | some pr =>
    rw [hf] at hc
    injection hc with h2
    rw [← h2]
    exact h pr (List.mem_of_find?_eq_some hf)

/-- A dataframe whose columns are all empty has zero rows. -/
theorem nrows_zero (df : Dataset) (h : ∀ c ∈ df.columns, c.2.values = []) :
    df.nrows = 0 := by
  unfold Dataset.nrows
  cases hcols : df.columns with
  | nil => rfl
  | cons c rest =>
    have hv : c.2.values = [] :=
      h c (by rw [hcols]; exact List.mem_cons_self c rest)
    show c.2.values.length = 0
    rw [hv]
    rfl

/-- C5: on any dataframe with zero rows, the numeric-range, membership,
consistency and duplicate checks all pass vacuously. -/
theorem zero_rows_checks_pass (df : Dataset)
    (h : ∀ c ∈ df.columns, c.2.values = []) :
    (check_value_ranges df).status = "PASSED" ∧
    (check_accepted_values df).status = "PASSED" ∧
    (check_data_consistency df).status = "PASSED" ∧
    (check_duplicates df).status = "PASSED" := by
  refine ⟨?_, ?_, ?_, ?_⟩
  · show statusOf (range_checks.filterMap (rangeIssue df)) = "PASSED"
    have hnil : range_checks.filterMap (rangeIssue df) = [] := by
      rw [List.filterMap_eq_nil_iff]
      intro p _
      cases hc : df.getCol p.1 with
      | none => simp [rangeIssue, hc]
      | some c => simp [rangeIssue, hc, getCol_values_nil df h hc]
    rw [hnil]
    rfl
  · show statusOf (accepted_values.filterMap (acceptedIssue df)) = "PASSED"
    have hnil : accepted_values.filterMap (acceptedIssue df) = [] := by
      rw [List.filterMap_eq_nil_iff]
      intro p _
      cases hc : df.getCol p.1 with
      | none => simp [acceptedIssue, hc]
      | some c => simp [acceptedIssue, hc, getCol_values_nil df h hc]
    rw [hnil]
    rfl
  · show statusOf (consIssue1 df ++ consIssue2 df ++ consIssue3 df) = "PASSED"
    have h1 : consIssue1 df = [] := by
      unfold consIssue1
      cases hc1 : df.getCol "pdays" with
      | none => rfl
      | some cp =>
        cases hc2 : df.getCol "previous" with
        | none => rfl
        | some cv => simp [getCol_values_nil df h hc1]
    have h2 : consIssue2 df = [] := by
      unfold consIssue2
      cases hc1 : df.getCol "previous" with
      | none => rfl
      | some cv =>
        cases hc2 : df.getCol "poutcome" with
        | none => rfl
        | some cq => simp [getCol_values_nil df h hc1]
    have h3 : consIssue3 df = [] := by
      unfold consIssue3
      cases hc : df.getCol "duration" with
      | none => rfl
      | some cd => simp [getCol_values_nil df h hc]
    rw [h1, h2, h3]
    rfl
  · show (if dupCount df.rows = 0 then "PASSED" else "FAILED") = "PASSED"
    have hr : df.rows = [] := by
      unfold Dataset.rows
      rw [nrows_zero df h]
      rfl
    rw [hr]
    rfl

/-- C5 witness: the concrete zero-row dataframe `dsZero` passes the four
row-dependent checks. -/
theorem zero_rows_checks_pass_witness :
    (∀ c ∈ dsZero.columns, c.2.values = []) ∧
    ((check_value_ranges dsZero).status = "PASSED" ∧
     (check_accepted_values dsZero).status = "PASSED" ∧
     (check_data_consistency dsZero).status = "PASSED" ∧
     (check_duplicates dsZero).status = "PASSED") :=
  ⟨by decide, zero_rows_checks_pass dsZero (by decide)⟩

/-- C6: the duplicate check reports FAILED exactly when the duplicated-row
count is positive, and that count is exactly the number of row positions
whose full row equals some strictly earlier row (first occurrences are
not counted). -/
theorem duplicates_check_correct (df : Dataset) :
    ((check_duplicates df).status = "FAILED" ↔ 0 < dupCount df.rows) ∧
    dupCount df.rows = (List.range df.rows.length).countP
      (fun i => decide (df.rows.getD i [] ∈ df.rows.take i)) := by
  constructor
  · show (if dupCount df.rows = 0 then "PASSED" else "FAILED") = "FAILED" ↔ _
    by_cases h : dupCount df.rows = 0
    · rw [if_pos h]
      constructor
      · intro hs
        exact absurd hs (by decide)
      · intro hp
        omega
    · rw [if_neg h]
      constructor
      · intro _
        omega
      · intro _
        rfl
  · exact dupCount_eq_spec df.rows

/-- Every result of one run has status FAILED exactly when its issue list
is non-empty: violations are recorded, never raised. -/
theorem check_status_failed_iff (df : Dataset) :
    ∀ res ∈ runChecks df, (res.status = "FAILED" ↔ res.issues ≠ []) := by
  intro res hres
  simp only [runChecks, List.mem_cons, List.not_mem_nil, or_false] at hres
  rcases hres with h | h | h | h | h | h <;> subst h
  · exact statusOf_failed_iff _
  · exact statusOf_failed_iff _
  · exact statusOf_failed_iff _
  · exact statusOf_failed_iff _
  · show (if dupCount df.rows = 0 then "PASSED" else "FAILED") = "FAILED" ↔
      (if dupCount df.rows > 0 then
        ["Found " ++ toString (dupCount df.rows) ++ " duplicate records"]
      else []) ≠ []
    by_cases h : dupCount df.rows = 0
    · rw [if_pos h, if_neg (by omega)]
      constructor
      · intro hs
        exact absurd hs (by decide)
      · intro hne
        exact absurd rfl hne
    · rw [if_neg h, if_pos (by omega)]
      constructor
      · intro _
        exact List.cons_ne_nil _ _
      · intro _
        rfl
  · exact statusOf_failed_iff _

/-- C7: errors are two-tier: a fetch failure is propagated unchanged and
produces no report, while a successful fetch always yields a complete
six-result report in which every violation is a FAILED result with
itemized issues and never an exception. -/
theorem run_two_tier_errors :
    (∀ e : String, Checker.new.run (Except.error e) = Except.error e) ∧
    (∀ df : Dataset,
      Checker.new.run (Except.ok df) =
        Except.ok (runState Checker.new df, runReport Checker.new df) ∧
      (runReport Checker.new df).total_tests = 6 ∧
      ∀ res ∈ (runReport Checker.new df).results,
        (res.status = "FAILED" ↔ res.issues ≠ [])) := by
  refine ⟨fun _ => rfl, fun df => ⟨rfl, rfl, ?_⟩⟩
  intro res hres
  exact check_status_failed_iff df res hres

/-- C7 witness: a concrete fetch error is propagated, and on the concrete
dataframe `dsC7` the type check's status matches its issue list. -/
theorem run_two_tier_errors_witness :
    Checker.new.run (Except.error "boom") = Except.error "boom" ∧
    ((check_data_types dsC7).status = "FAILED" ↔
      (check_data_types dsC7).issues ≠ []) :=
  ⟨run_two_tier_errors.1 "boom",
   (run_two_tier_errors.2 dsC7).2.2 (check_data_types dsC7)
     (List.mem_cons_self _ _)⟩

/-- C9: whenever the duration column is present and holds an integer cell
less than or equal to zero, the consistency check fails — although the
cell value 0 is inside the inclusive range bounds [0, 5000] accepted by
the numeric-range check. -/
theorem consistency_fails_on_nonpositive_duration (df : Dataset)
    (col : Column) (n : Int) (h1 : df.getCol "duration" = some col)
    (h2 : Value.int n ∈ col.values) (h3 : n ≤ 0) :
    (check_data_consistency df).status = "FAILED" ∧
    isOutOfRange 0 5000 (Value.int 0) = false := by
  refine ⟨?_, rfl⟩
  show statusOf (consIssue1 df ++ consIssue2 df ++ consIssue3 df) = "FAILED"
  rw [statusOf_failed_iff]
  have hc3 : consIssue3 df ≠ [] := by
    have hmem : Value.int n ∈ col.values.filter (fun v => v.leInt 0) :=
      List.mem_filter.mpr ⟨h2, by simp only [Value.leInt, decide_eq_true_eq]; exact h3⟩
    have hpos : 0 < (col.values.filter (fun v => v.leInt 0)).length :=
      List.length_pos.mpr (List.ne_nil_of_mem hmem)
    simp only [consIssue3, h1, if_pos hpos]
    exact List.cons_ne_nil _ _
  intro hall
  rw [List.append_eq_nil, List.append_eq_nil] at hall
  exact hc3 hall.2

/-- C9 witness: on `dsDur` the duration cell 0 makes the consistency
check fail while being in range for the numeric-range check. -/
theorem consistency_fails_on_nonpositive_duration_witness :
    dsDur.getCol "duration" = some ⟨"int64", [Value.int 0]⟩ ∧
    Value.int 0 ∈ Column.values ⟨"int64", [Value.int 0]⟩ ∧ (0 : Int) ≤ 0 ∧
    ((check_data_consistency dsDur).status = "FAILED" ∧
     isOutOfRange 0 5000 (Value.int 0) = false) :=
  ⟨rfl, List.mem_singleton.mpr rfl, le_refl 0,
   consistency_fails_on_nonpositive_duration dsDur ⟨"int64", [Value.int 0]⟩ 0
     rfl (List.mem_singleton.mpr rfl) (le_refl 0)⟩

/-- C10: a null cell in a configured categorical column is never a member
of the accepted set, so its presence makes the membership check fail —
even though poutcome is not among the required fields of the null check. -/
theorem accepted_values_fails_on_null (df : Dataset) (p : String × List String)
    (col : Column) (hp : p ∈ accepted_values) (h1 : df.getCol p.1 = some col)
    (h2 : Value.null ∈ col.values) :
    (check_accepted_values df).status = "FAILED" ∧
    (∀ acc : List String, Value.isin Value.null acc = false) ∧
    required_fields.contains "poutcome" = false := by
  refine ⟨?_, fun _ => rfl, rfl⟩
  show statusOf (accepted_values.filterMap (acceptedIssue df)) = "FAILED"
  rw [statusOf_failed_iff]
  intro hall
  rw [List.filterMap_eq_nil_iff] at hall
  have hnone := hall p hp
  have hmem : Value.null ∈ col.values.filter (fun v => !(v.isin p.2)) :=
    List.mem_filter.mpr ⟨h2, rfl⟩
  have hpos : 0 < (col.values.filter (fun v => !(v.isin p.2))).length :=
    List.length_pos.mpr (List.ne_nil_of_mem hmem)
  simp only [acceptedIssue, h1, if_pos hpos] at hnone
  exact Option.some_ne_none _ hnone

/-- C10 witness: on `dsPout` the null poutcome cell makes the membership
check fail, while poutcome is not a required field of the null check. -/
theorem accepted_values_fails_on_null_witness :
    ("poutcome", ["failure", "nonexistent", "success"]) ∈ accepted_values ∧
    dsPout.getCol "poutcome" = some ⟨"object", [Value.null]⟩ ∧
    Value.null ∈ Column.values ⟨"object", [Value.null]⟩ ∧
    ((check_accepted_values dsPout).status = "FAILED" ∧
     (∀ acc : List String, Value.isin Value.null acc = false) ∧
     required_fields.contains "poutcome" = false) :=
  ⟨by decide, rfl, List.mem_singleton.mpr rfl,
   accepted_values_fails_on_null dsPout
     ("poutcome", ["failure", "nonexistent", "success"])
     ⟨"object", [Value.null]⟩ (by decide) rfl (List.mem_singleton.mpr rfl)⟩
